import Mathlib

/-!
Shallow embedding of the landing-gear timing simulator
(src/landing_gear of the henryhazelton-uni/landing-gear repository).

Python integers are modelled as `Int`.  The Python float field
`actuator_speed_mm_per_100ms` and the real-valued intermediate
`ideal_extension_time` are modelled as exact rationals `ℚ`, matching the
spec's "real-valued" description of the arithmetic; float rounding and
float range are outside the scope of this embedding (at the concrete
configurations used below the float and the rational computations agree).

The three `random.randint(-random_variation_ms, random_variation_ms)` draws
are passed as explicit arguments `d1 d2 d3`, in the order the source draws
them (pump site, extension site, lock site).  `random.randint` itself
requires `random_variation_ms ≥ 0`; per the §4.1 contract the variance
parameters are declared as non-negative integers, and a draw satisfies
`-random_variation_ms ≤ d ≤ random_variation_ms`.

Fallible steps become `Except`:
* `ValueError("Actuator speed must be positive")` is `SimError.invalidConfiguration`;
* inside the progress-bar loop of functions/simulation_logic.py the call
  `time.sleep(total_delay_time_ms / steps / 1000)` raises
  `ValueError("sleep length must be non-negative")` whenever its argument is
  negative, i.e. exactly when `total_delay_time_ms < 0`; this is
  `SimError.negativeSleep`.
-/

/-- Gear states, from configurations/gear_states.py. -/
inductive GearState where
  | UP_LOCKED
  | TRANSITIONING_DOWN
  | DOWN_LOCKED
  | FAILURE_DETECTED
deriving DecidableEq

/-- Configuration record, from configurations/configuration_parameters.py. -/
structure GearConfiguration where
  name : String
  pump_latency_ms : Int
  actuator_speed_mm_per_100ms : ℚ
  extension_distance_mm : Int
  lock_time_ms : Int
  requirement_time_ms : Int := 8000
deriving DecidableEq

/-- A timeline entry `(time_ms, description, state)` as appended by the engine. -/
abbrev TimelineEvent := Int × String × GearState

/-- The dictionary returned by `simulate_landing_gear_extension`. -/
structure SimulationResult where
  config : GearConfiguration
  timeline : List TimelineEvent
  total_time_ms : Int
  meets_requirement : Bool
  failure_state_time : Option Int
deriving DecidableEq

/-- The two ValueError sites of functions/simulation_logic.py: the actuator
speed precondition, and `time.sleep` on a negative duration inside the
progress-bar loop. -/
inductive SimError where
  | invalidConfiguration
  | negativeSleep
deriving DecidableEq

instance {ε α : Type} [DecidableEq ε] [DecidableEq α] : DecidableEq (Except ε α) := fun x y =>
  match x, y with
  | .ok a, .ok b =>
      if h : a = b then isTrue (by rw [h]) else isFalse (fun hh => h (Except.ok.inj hh))
  | .error a, .error b =>
      if h : a = b then isTrue (by rw [h]) else isFalse (fun hh => h (Except.error.inj hh))
  | .ok _, .error _ => isFalse (fun hh => Except.noConfusion hh)
  | .error _, .ok _ => isFalse (fun hh => Except.noConfusion hh)

/-- Python `int(x)` on a real value: truncation toward zero.  For a rational
`num/den` in lowest terms with `den > 0`, truncation toward zero is exactly
the truncated division `num.tdiv den`. -/
def intTrunc (q : ℚ) : Int := q.num.tdiv q.den

/-- Message of the first timeline event. -/
def initialMsg : String := "Initial state: gear up and locked"

/-- Message of the second timeline event. -/
def commandMsg : String := "Command issued: GEAR DOWN"

/-- Message of the pump event. -/
def pumpMsg (pd : Int) : String := s!"Hydraulic pump ready after {pd} ms"

/-- Message of the actuator event. -/
def actuatorMsg (et : Int) : String := s!"Actuator finished extending after {et} ms"

/-- Message of the sensor event. -/
def sensorMsg (sd : Int) : String := s!"Down-position sensor triggered (+{sd} ms noise)"

/-- Message of the lock event. -/
def lockMsg (ld : Int) : String := s!"Gear locked DOWN after additional {ld} ms"

/-- Message of the synthetic failure event. -/
def breachMsg (req : Int) : String :=
  s!"Requirement breached (> {req} ms). System would flag failure."

/-- Pump delay: `max(config.pump_latency_ms + randint(-v, v), 0)` with the
draw `d` made explicit. -/
def pumpDelay (c : GearConfiguration) (d : Int) : Int :=
  max (c.pump_latency_ms + d) 0

/-- Extension time: `max(int(extension_distance_mm / (speed/100)) + randint(-v, v), 0)`
with the draw `d` made explicit. -/
def extensionTime (c : GearConfiguration) (d : Int) : Int :=
  max (intTrunc ((c.extension_distance_mm : ℚ) / (c.actuator_speed_mm_per_100ms / 100)) + d) 0

/-- Lock delay: `max(config.lock_time_ms + randint(-v, v), 0)` with the
draw `d` made explicit. -/
def lockDelay (c : GearConfiguration) (d : Int) : Int :=
  max (c.lock_time_ms + d) 0

/-- Shallow embedding of `simulate_landing_gear_extension` from
functions/simulation_logic.py.  This version computes all three perturbed
delays up front (in draw order: pump, extension, lock), then appends the
phase events, runs the progress-bar loop (whose only result-relevant
behaviour is the `time.sleep` ValueError on a negative per-step duration)
and finally performs the requirement check. -/
def simulate_landing_gear_extension (c : GearConfiguration)
    (random_variation_ms sensor_noise_ms : Int) (d1 d2 d3 : Int) :
    Except SimError SimulationResult :=
  let timeline : List TimelineEvent := []
  let current_state := GearState.UP_LOCKED
  let time_ms : Int := 0
  let timeline := timeline ++ [(time_ms, initialMsg, current_state)]
  let timeline := timeline ++ [(time_ms, commandMsg, current_state)]
  let pump_delay := pumpDelay c d1
  let speed_mm_per_ms : ℚ := c.actuator_speed_mm_per_100ms / 100
  if speed_mm_per_ms ≤ 0 then Except.error SimError.invalidConfiguration
  else
    let extension_time := extensionTime c d2
    let sensor_delay := sensor_noise_ms
    let lock_delay := lockDelay c d3
    let time_ms := time_ms + pump_delay
    let current_state := GearState.TRANSITIONING_DOWN
    let timeline := timeline ++ [(time_ms, pumpMsg pump_delay, current_state)]
    let time_ms := time_ms + extension_time
    let timeline := timeline ++ [(time_ms, actuatorMsg extension_time, current_state)]
    let time_ms := time_ms + sensor_delay
    let timeline := timeline ++ [(time_ms, sensorMsg sensor_delay, current_state)]
    let time_ms := time_ms + lock_delay
    let current_state := GearState.DOWN_LOCKED
    let timeline := timeline ++ [(time_ms, lockMsg lock_delay, current_state)]
    let total_delay_time_ms := pump_delay + extension_time + sensor_delay + lock_delay
    if total_delay_time_ms < 0 then Except.error SimError.negativeSleep
    else
      let total_time_ms := time_ms
      let meets_requirement := decide (total_time_ms ≤ c.requirement_time_ms)
      if meets_requirement then
        Except.ok ⟨c, timeline, total_time_ms, meets_requirement, none⟩
      else
        let failure_state_time := c.requirement_time_ms
        let timeline := timeline ++
          [(failure_state_time, breachMsg c.requirement_time_ms, GearState.FAILURE_DETECTED)]
        Except.ok ⟨c, timeline, total_time_ms, meets_requirement, some failure_state_time⟩

/-- Shallow embedding of the second copy of `simulate_landing_gear_extension`,
in src/landing_gear/__init__.py: each draw is interleaved with its phase's
append (the pump draw and append precede the actuator-speed check) and there
is no progress bar, hence no sleep error. -/
def simulate_landing_gear_extension_dup (c : GearConfiguration)
    (random_variation_ms sensor_noise_ms : Int) (d1 d2 d3 : Int) :
    Except SimError SimulationResult :=
  let timeline : List TimelineEvent := []
  let current_state := GearState.UP_LOCKED
  let time_ms : Int := 0
  let timeline := timeline ++ [(time_ms, initialMsg, current_state)]
  let timeline := timeline ++ [(time_ms, commandMsg, current_state)]
  let pump_delay := pumpDelay c d1
  let time_ms := time_ms + pump_delay
  let current_state := GearState.TRANSITIONING_DOWN
  let timeline := timeline ++ [(time_ms, pumpMsg pump_delay, current_state)]
  let speed_mm_per_ms : ℚ := c.actuator_speed_mm_per_100ms / 100
  if speed_mm_per_ms ≤ 0 then Except.error SimError.invalidConfiguration
  else
    let extension_time := extensionTime c d2
    let time_ms := time_ms + extension_time
    let timeline := timeline ++ [(time_ms, actuatorMsg extension_time, current_state)]
    let sensor_delay := sensor_noise_ms
    let time_ms := time_ms + sensor_delay
    let timeline := timeline ++ [(time_ms, sensorMsg sensor_delay, current_state)]
    let lock_delay := lockDelay c d3
    let time_ms := time_ms + lock_delay
    let current_state := GearState.DOWN_LOCKED
    let timeline := timeline ++ [(time_ms, lockMsg lock_delay, current_state)]
    let total_time_ms := time_ms
    let meets_requirement := decide (total_time_ms ≤ c.requirement_time_ms)
    if meets_requirement then
      Except.ok ⟨c, timeline, total_time_ms, meets_requirement, none⟩
    else
      let failure_state_time := c.requirement_time_ms
      let timeline := timeline ++
        [(failure_state_time, breachMsg c.requirement_time_ms, GearState.FAILURE_DETECTED)]
      Except.ok ⟨c, timeline, total_time_ms, meets_requirement, some failure_state_time⟩

/-- Configuration A from configurations/example_configurations.py. -/
def config_a : GearConfiguration :=
  ⟨"Config A – Shared Pump", 300, 8, 700, 300, 8000⟩

/-- Configuration B from configurations/example_configurations.py. -/
def config_b : GearConfiguration :=
  ⟨"Config B – Dedicated Pump", 100, 12, 700, 300, 8000⟩

/-- The six phase events of a successful run, as a function of the sensor
delay n, pump delay P, extension time E and lock delay L. -/
def baseTimeline (n P E L : Int) : List TimelineEvent :=
  [(0, initialMsg, GearState.UP_LOCKED),
   (0, commandMsg, GearState.UP_LOCKED),
   (P, pumpMsg P, GearState.TRANSITIONING_DOWN),
   (P + E, actuatorMsg E, GearState.TRANSITIONING_DOWN),
   (P + E + n, sensorMsg n, GearState.TRANSITIONING_DOWN),
   (P + E + n + L, lockMsg L, GearState.DOWN_LOCKED)]

/-- The result of a successful run as a function of the four delays. -/
def expectedResult (c : GearConfiguration) (n P E L : Int) : SimulationResult :=
  if P + E + n + L ≤ c.requirement_time_ms then
    ⟨c, baseTimeline n P E L, P + E + n + L, true, none⟩
  else
    ⟨c, baseTimeline n P E L ++
        [(c.requirement_time_ms, breachMsg c.requirement_time_ms, GearState.FAILURE_DETECTED)],
      P + E + n + L, false, some c.requirement_time_ms⟩

/-- A configuration that satisfies the spec's stated data-model constraints
except that its nominal pump latency is negative. -/
def cfg_neg_pump : GearConfiguration := ⟨"Neg Pump", -1, 100, 100, 0, 8000⟩

/-- A configuration that satisfies the spec's stated data-model constraints,
with a negative requirement deadline (the data model only asks for an
integer deadline). -/
def cfg_neg_req : GearConfiguration := ⟨"Neg Req", 0, 100, 100, 0, -1⟩

/-- A configuration whose three nominal delays all evaluate to zero
(extension distance 1 mm at 200 mm per 100 ms truncates to 0 ms). -/
def cfg_zero_work : GearConfiguration := ⟨"Zero Work", 0, 200, 1, 0, 8000⟩

/-- A configuration with a non-positive actuator speed. -/
def cfg_bad_speed : GearConfiguration := ⟨"Bad Speed", 300, 0, 700, 300, 8000⟩

/-- Shallow embedding of functions/simulation_logic.py threading the shared
pseudo-random source explicitly: `g` is the stream of values produced by the
sequential `random.randint` calls and `p` is the index of the next draw.
Each `random.randint(-random_variation_ms, random_variation_ms)` call in the
source consumes one stream value, in source order: the pump draw comes first
(before the actuator-speed check), then the extension draw, then the lock
draw.  The function returns the engine's result together with the index of
the next unconsumed draw. -/
def simulate_landing_gear_rand (c : GearConfiguration)
    (random_variation_ms sensor_noise_ms : Int) (g : Nat → Int) (p : Nat) :
    Except SimError SimulationResult × Nat :=
  let timeline : List TimelineEvent := []
  let current_state := GearState.UP_LOCKED
  let time_ms : Int := 0
  let timeline := timeline ++ [(time_ms, initialMsg, current_state)]
  let timeline := timeline ++ [(time_ms, commandMsg, current_state)]
  let d1 := g p
  let pump_delay := pumpDelay c d1
  let speed_mm_per_ms : ℚ := c.actuator_speed_mm_per_100ms / 100
  if speed_mm_per_ms ≤ 0 then (Except.error SimError.invalidConfiguration, p + 1)
  else
    let d2 := g (p + 1)
    let extension_time := extensionTime c d2
    let sensor_delay := sensor_noise_ms
    let d3 := g (p + 2)
    let lock_delay := lockDelay c d3
    let time_ms := time_ms + pump_delay
    let current_state := GearState.TRANSITIONING_DOWN
    let timeline := timeline ++ [(time_ms, pumpMsg pump_delay, current_state)]
    let time_ms := time_ms + extension_time
    let timeline := timeline ++ [(time_ms, actuatorMsg extension_time, current_state)]
    let time_ms := time_ms + sensor_delay
    let timeline := timeline ++ [(time_ms, sensorMsg sensor_delay, current_state)]
    let time_ms := time_ms + lock_delay
    let current_state := GearState.DOWN_LOCKED
    let timeline := timeline ++ [(time_ms, lockMsg lock_delay, current_state)]
    let total_delay_time_ms := pump_delay + extension_time + sensor_delay + lock_delay
    if total_delay_time_ms < 0 then (Except.error SimError.negativeSleep, p + 3)
    else
      let total_time_ms := time_ms
      let meets_requirement := decide (total_time_ms ≤ c.requirement_time_ms)
      if meets_requirement then
        (Except.ok ⟨c, timeline, total_time_ms, meets_requirement, none⟩, p + 3)
      else
        let failure_state_time := c.requirement_time_ms
        let timeline := timeline ++
          [(failure_state_time, breachMsg c.requirement_time_ms, GearState.FAILURE_DETECTED)]
        (Except.ok ⟨c, timeline, total_time_ms, meets_requirement, some failure_state_time⟩,
          p + 3)

/-- The entry point main() runs the engine once per configuration against the
single shared random source: configuration one first, then configuration two
with the stream position main() was left at. -/
def runTwoConfigs (c1 c2 : GearConfiguration)
    (random_variation_ms sensor_noise_ms : Int) (g : Nat → Int) (p : Nat) :
    (Except SimError SimulationResult × Except SimError SimulationResult) × Nat :=
  let r1 := simulate_landing_gear_rand c1 random_variation_ms sensor_noise_ms g p
  let r2 := simulate_landing_gear_rand c2 random_variation_ms sensor_noise_ms g r1.2
  ((r1.1, r2.1), r2.2)

/-- Python `s * n`: the string repeated n times. -/
def strRepeat (s : String) (n : Nat) : String := String.join (List.replicate n s)

/-- Rendering of a non-negative rational with one decimal digit, used for the
percent field of the progress bar.  At the progress-bar call site the value is
`100 * (iteration / 100.0)` for an integer iteration between 0 and 100, where
the float computation and Python's round-to-one-decimal formatting produce
exactly the digits of the integer followed by ".0", which this function
reproduces; its value at other rationals is irrelevant to any claim. -/
def fmt1 (q : ℚ) : String := toString ⌊q⌋ ++ "." ++ toString (⌊q * 10⌋ - 10 * ⌊q⌋)

/-- Rendering of a rational with two decimal digits, used for the cosmetic
elapsed-wall-clock line; this abstracts Python's `.2f` float formatting
(its exact digits at a given wall-clock reading matter to no claim). -/
def fmt2 (q : ℚ) : String := toString ⌊q⌋ ++ "." ++ toString (⌊q * 100⌋ - 100 * ⌊q⌋)

/-- One frame written by progress_bar (functions/progress_bar.py) at the
engine's call site: decimals = 1, length = 100, and the `\r`-prefixed format
string.  `pre`, `suf` and `fill` are the prefix, suffix and fill arguments. -/
def progress_bar_frame (iteration total : Nat) (pre suf fill : String) : String :=
  let percent := fmt1 ((100 * (iteration : ℚ)) / (total : ℚ))
  let filledLength := 100 * iteration / total
  let bar := strRepeat fill filledLength ++ strRepeat "-" (100 - filledLength)
  "\r" ++ pre ++ " |" ++ bar ++ "| " ++ percent ++ "% " ++ suf

/-- The frames the progress-bar while-loop of simulation_logic.py writes for
counters 0, 1, ..., k-1. -/
def progressFrames (k : Nat) : List String :=
  (List.range k).map
    (fun counter =>
      progress_bar_frame counter 100 "Extending Landing Gear: " "Landing Gear Extended" "#")

/-- Shallow embedding of simulate_landing_gear_extension from
functions/simulation_logic.py together with everything it writes to the
console.  `clock` supplies the two `time.time()` readings taken around the
progress-bar loop (reading 0 at the start, reading 1 at the end); wall-clock
sleeping itself has no representation beyond the ValueError `time.sleep`
raises on a negative duration, which aborts the loop during the first
iteration, after a single frame was rendered. -/
def simulate_landing_gear_with_console (c : GearConfiguration)
    (random_variation_ms sensor_noise_ms : Int) (d1 d2 d3 : Int) (clock : Nat → ℚ) :
    Except SimError SimulationResult × List String :=
  let timeline : List TimelineEvent := []
  let current_state := GearState.UP_LOCKED
  let time_ms : Int := 0
  let timeline := timeline ++ [(time_ms, initialMsg, current_state)]
  let timeline := timeline ++ [(time_ms, commandMsg, current_state)]
  let pump_delay := pumpDelay c d1
  let speed_mm_per_ms : ℚ := c.actuator_speed_mm_per_100ms / 100
  if speed_mm_per_ms ≤ 0 then (Except.error SimError.invalidConfiguration, [])
  else
    let extension_time := extensionTime c d2
    let sensor_delay := sensor_noise_ms
    let lock_delay := lockDelay c d3
    let time_ms := time_ms + pump_delay
    let current_state := GearState.TRANSITIONING_DOWN
    let timeline := timeline ++ [(time_ms, pumpMsg pump_delay, current_state)]
    let time_ms := time_ms + extension_time
    let timeline := timeline ++ [(time_ms, actuatorMsg extension_time, current_state)]
    let time_ms := time_ms + sensor_delay
    let timeline := timeline ++ [(time_ms, sensorMsg sensor_delay, current_state)]
    let time_ms := time_ms + lock_delay
    let current_state := GearState.DOWN_LOCKED
    let timeline := timeline ++ [(time_ms, lockMsg lock_delay, current_state)]
    let total_delay_time_ms := pump_delay + extension_time + sensor_delay + lock_delay
    let startLine := "Starting extension of landing gear:"
    if total_delay_time_ms < 0 then
      (Except.error SimError.negativeSleep, [startLine] ++ progressFrames 1)
    else
      let start_time := clock 0
      let end_time := clock 1
      let time_taken := end_time - start_time
      let out := [startLine] ++ progressFrames 101 ++
        ["", s!"Time taken to execute: {fmt2 time_taken} seconds", ""]
      let total_time_ms := time_ms
      let meets_requirement := decide (total_time_ms ≤ c.requirement_time_ms)
      if meets_requirement then
        (Except.ok ⟨c, timeline, total_time_ms, meets_requirement, none⟩, out)
      else
        let failure_state_time := c.requirement_time_ms
        let timeline := timeline ++
          [(failure_state_time, breachMsg c.requirement_time_ms, GearState.FAILURE_DETECTED)]
        (Except.ok ⟨c, timeline, total_time_ms, meets_requirement, some failure_state_time⟩, out)

/-- Boolean check that a list of timestamps is non-decreasing in order. -/
def timestampsSorted : List Int → Bool
  | [] => true
  | [_] => true
  | a :: b :: rest => decide (a ≤ b) && timestampsSorted (b :: rest)

/-! Helper lemmas. -/

lemma speed_check_false (c : GearConfiguration)
    (hs : 0 < c.actuator_speed_mm_per_100ms) :
    ¬ (c.actuator_speed_mm_per_100ms / 100 ≤ (0:ℚ)) :=
  not_le.mpr (div_pos hs (by norm_num))

lemma speed_check_true (c : GearConfiguration)
    (hs : c.actuator_speed_mm_per_100ms ≤ 0) :
    c.actuator_speed_mm_per_100ms / 100 ≤ (0:ℚ) :=
  div_nonpos_iff.mpr (Or.inr ⟨hs, by norm_num⟩)

lemma simulate_speed_error (c : GearConfiguration) (v n d1 d2 d3 : Int)
    (hs : c.actuator_speed_mm_per_100ms ≤ 0) :
    simulate_landing_gear_extension c v n d1 d2 d3 =
      Except.error SimError.invalidConfiguration := by
  simp only [simulate_landing_gear_extension]
  rw [if_pos (speed_check_true c hs)]

lemma simulate_sleep_error (c : GearConfiguration) (v n d1 d2 d3 : Int)
    (hs : 0 < c.actuator_speed_mm_per_100ms)
    (ht : pumpDelay c d1 + extensionTime c d2 + n + lockDelay c d3 < 0) :
    simulate_landing_gear_extension c v n d1 d2 d3 =
      Except.error SimError.negativeSleep := by
  simp only [simulate_landing_gear_extension]
  rw [if_neg (speed_check_false c hs), if_pos ht]

lemma simulate_ok (c : GearConfiguration) (v n d1 d2 d3 : Int)
    (hs : 0 < c.actuator_speed_mm_per_100ms)
    (ht : 0 ≤ pumpDelay c d1 + extensionTime c d2 + n + lockDelay c d3) :
    simulate_landing_gear_extension c v n d1 d2 d3 =
      Except.ok (expectedResult c n (pumpDelay c d1) (extensionTime c d2) (lockDelay c d3)) := by
  simp only [simulate_landing_gear_extension, zero_add]
  rw [if_neg (speed_check_false c hs), if_neg (not_lt.mpr ht)]
  by_cases hm : pumpDelay c d1 + extensionTime c d2 + n + lockDelay c d3 ≤ c.requirement_time_ms
  · simp only [decide_eq_true_eq]
    rw [if_pos hm]
    simp [expectedResult, baseTimeline, hm]
  · simp only [decide_eq_true_eq]
    rw [if_neg hm]
    simp [expectedResult, baseTimeline, hm]

lemma simulate_ok_inv (c : GearConfiguration) (v n d1 d2 d3 : Int) (r : SimulationResult)
    (h : simulate_landing_gear_extension c v n d1 d2 d3 = Except.ok r) :
    0 < c.actuator_speed_mm_per_100ms ∧
      0 ≤ pumpDelay c d1 + extensionTime c d2 + n + lockDelay c d3 ∧
      r = expectedResult c n (pumpDelay c d1) (extensionTime c d2) (lockDelay c d3) := by
  by_cases hs : 0 < c.actuator_speed_mm_per_100ms
  · by_cases ht : 0 ≤ pumpDelay c d1 + extensionTime c d2 + n + lockDelay c d3
    · rw [simulate_ok c v n d1 d2 d3 hs ht] at h
      exact ⟨hs, ht, (Except.ok.inj h).symm⟩
    · rw [simulate_sleep_error c v n d1 d2 d3 hs (not_le.mp ht)] at h
      exact Except.noConfusion h
  · rw [simulate_speed_error c v n d1 d2 d3 (not_lt.mp hs)] at h
    exact Except.noConfusion h

lemma extensionTime_eq (c : GearConfiguration) (d : Int) (q : ℚ)
    (h : (c.extension_distance_mm : ℚ) / (c.actuator_speed_mm_per_100ms / 100) = q) :
    extensionTime c d = max (intTrunc q + d) 0 := by
  rw [extensionTime, h]

lemma extensionTime_config_a : extensionTime config_a 0 = 8750 := by
  rw [extensionTime_eq config_a 0 8750 (by norm_num [config_a])]
  decide

lemma extensionTime_config_b : extensionTime config_b 0 = 5833 := by
  rw [extensionTime_eq config_b 0 (mkRat 17500 3)
    (by rw [Rat.mkRat_eq_divInt, Rat.divInt_eq_div]; norm_num [config_b])]
  decide

/-! Claim theorems. -/

/-- C1: for every run that returns a result, the requirement check behaves as
specified: if `total_time_ms` exceeds `requirement_time_ms` then
`meets_requirement` is false, the final timeline event is the synthetic
FAILURE_DETECTED event with timestamp exactly `requirement_time_ms`,
`failure_state_time` is that timestamp, and the appended event leaves
`total_time_ms` equal to the sum of the four phase delays; otherwise
`meets_requirement` is true, no FAILURE_DETECTED event is in the timeline and
`failure_state_time` is `none`. -/
theorem C1_requirement_check (c : GearConfiguration) (v n d1 d2 d3 : Int)
    (r : SimulationResult)
    (h : simulate_landing_gear_extension c v n d1 d2 d3 = Except.ok r) :
    (c.requirement_time_ms < r.total_time_ms →
        r.meets_requirement = false ∧
        r.timeline.getLast? =
          some (c.requirement_time_ms, breachMsg c.requirement_time_ms,
            GearState.FAILURE_DETECTED) ∧
        r.failure_state_time = some c.requirement_time_ms ∧
        r.total_time_ms =
          pumpDelay c d1 + extensionTime c d2 + n + lockDelay c d3) ∧
    (r.total_time_ms ≤ c.requirement_time_ms →
        r.meets_requirement = true ∧
        (∀ e ∈ r.timeline, e.2.2 ≠ GearState.FAILURE_DETECTED) ∧
        r.failure_state_time = none ∧
        r.total_time_ms =
          pumpDelay c d1 + extensionTime c d2 + n + lockDelay c d3) := by
  obtain ⟨hs, ht, hr⟩ := simulate_ok_inv c v n d1 d2 d3 r h
  subst hr
  unfold expectedResult
  by_cases hm : pumpDelay c d1 + extensionTime c d2 + n + lockDelay c d3 ≤
      c.requirement_time_ms
  · rw [if_pos hm]
    constructor
    · intro hgt
      exact absurd hm (not_le.mpr hgt)
    · intro _
      refine ⟨rfl, ?_, rfl, rfl⟩
      intro e he
      simp only [baseTimeline, List.mem_cons, List.not_mem_nil, or_false] at he
      rcases he with rfl | rfl | rfl | rfl | rfl | rfl <;> simp
  · rw [if_neg hm]
    constructor
    · intro _
      refine ⟨rfl, ?_, rfl, rfl⟩
      rfl
    · intro hle
      exact absurd hle hm

/-- Witness for C1 at configuration A with zero variance and noise: the
requirement is breached and the failure branch facts hold. -/
theorem C1_requirement_check_witness :
    simulate_landing_gear_extension config_a 0 0 0 0 0 =
      Except.ok (expectedResult config_a 0 (pumpDelay config_a 0)
        (extensionTime config_a 0) (lockDelay config_a 0)) ∧
    ((expectedResult config_a 0 (pumpDelay config_a 0)
        (extensionTime config_a 0) (lockDelay config_a 0)).meets_requirement = false ∧
      (expectedResult config_a 0 (pumpDelay config_a 0)
        (extensionTime config_a 0) (lockDelay config_a 0)).timeline.getLast? =
        some (config_a.requirement_time_ms, breachMsg config_a.requirement_time_ms,
          GearState.FAILURE_DETECTED) ∧
      (expectedResult config_a 0 (pumpDelay config_a 0)
        (extensionTime config_a 0) (lockDelay config_a 0)).failure_state_time =
        some config_a.requirement_time_ms ∧
      (expectedResult config_a 0 (pumpDelay config_a 0)
        (extensionTime config_a 0) (lockDelay config_a 0)).total_time_ms =
        pumpDelay config_a 0 + extensionTime config_a 0 + 0 + lockDelay config_a 0) := by
  have hok : simulate_landing_gear_extension config_a 0 0 0 0 0 =
      Except.ok (expectedResult config_a 0 (pumpDelay config_a 0)
        (extensionTime config_a 0) (lockDelay config_a 0)) :=
    simulate_ok config_a 0 0 0 0 0 (by decide) (by rw [extensionTime_config_a]; decide)
  refine ⟨hok, (C1_requirement_check config_a 0 0 0 0 0 _ hok).1 ?_⟩
  rw [extensionTime_config_a]
  decide

/-- C3: the end-to-end example on configuration A with zero variance and
noise: extension time floor(700 / 0.08) = 8750 ms, total 300 + 8750 + 0 + 300
= 9350 ms, requirement not met, failure state time 8000, with the full
timeline as produced by the code. -/
theorem C3_config_a_example :
    simulate_landing_gear_extension config_a 0 0 0 0 0 =
      Except.ok ⟨config_a,
        [(0, "Initial state: gear up and locked", GearState.UP_LOCKED),
         (0, "Command issued: GEAR DOWN", GearState.UP_LOCKED),
         (300, "Hydraulic pump ready after 300 ms", GearState.TRANSITIONING_DOWN),
         (9050, "Actuator finished extending after 8750 ms", GearState.TRANSITIONING_DOWN),
         (9050, "Down-position sensor triggered (+0 ms noise)", GearState.TRANSITIONING_DOWN),
         (9350, "Gear locked DOWN after additional 300 ms", GearState.DOWN_LOCKED),
         (8000, "Requirement breached (> 8000 ms). System would flag failure.",
           GearState.FAILURE_DETECTED)],
        9350, false, some 8000⟩ ∧
    extensionTime config_a 0 = 8750 := by
  refine ⟨?_, extensionTime_config_a⟩
  rw [simulate_ok config_a 0 0 0 0 0 (by decide) (by rw [extensionTime_config_a]; decide),
    extensionTime_config_a]
  decide

/-- Counterexample to C4 as stated: on configuration A with zero variance and
noise the returned timeline's timestamps are not non-decreasing in append
order, because the appended FAILURE_DETECTED event carries timestamp 8000
after the lock event at 9350. -/
theorem C4_monotonicity_counterexample :
    (simulate_landing_gear_extension config_a 0 0 0 0 0).map
        (fun r => timestampsSorted (r.timeline.map (fun e => e.1))) =
      Except.ok false := by
  rw [simulate_ok config_a 0 0 0 0 0 (by decide) (by rw [extensionTime_config_a]; decide),
    extensionTime_config_a]
  decide

/-- C4 amended: for every run that returns a result with non-negative sensor
noise, the timestamps of the six phase events are non-decreasing in append
order (the first two sharing timestamp 0), and any event after the sixth is
the synthetic FAILURE_DETECTED event, whose timestamp is exactly
`requirement_time_ms` and may precede the lock timestamp. -/
theorem C4_monotonicity (c : GearConfiguration) (v n d1 d2 d3 : Int)
    (r : SimulationResult)
    (h : simulate_landing_gear_extension c v n d1 d2 d3 = Except.ok r)
    (hn : 0 ≤ n) :
    timestampsSorted ((r.timeline.take 6).map (fun e => e.1)) = true ∧
    (r.timeline.map (fun e => e.1)).take 2 = [0, 0] ∧
    (∀ e ∈ r.timeline.drop 6,
        e = (c.requirement_time_ms, breachMsg c.requirement_time_ms,
          GearState.FAILURE_DETECTED)) := by
  obtain ⟨hs, ht, hr⟩ := simulate_ok_inv c v n d1 d2 d3 r h
  subst hr
  have hP : 0 ≤ pumpDelay c d1 := le_max_right _ _
  have hE : 0 ≤ extensionTime c d2 := le_max_right _ _
  have hL : 0 ≤ lockDelay c d3 := le_max_right _ _
  unfold expectedResult
  by_cases hm : pumpDelay c d1 + extensionTime c d2 + n + lockDelay c d3 ≤
      c.requirement_time_ms
  · rw [if_pos hm]
    refine ⟨?_, rfl, ?_⟩
    · simp [baseTimeline, timestampsSorted]
      omega
    · intro e he
      simp [baseTimeline] at he
  · rw [if_neg hm]
    refine ⟨?_, rfl, ?_⟩
    · simp [baseTimeline, timestampsSorted]
      omega
    · intro e he
      simp [baseTimeline] at he
      exact he

/-- Witness for the amended C4 at configuration A with zero variance and
noise (a run that does append the failure event). -/
theorem C4_monotonicity_witness :
    timestampsSorted
      (((expectedResult config_a 0 (pumpDelay config_a 0)
          (extensionTime config_a 0) (lockDelay config_a 0)).timeline.take 6).map
        (fun e => e.1)) = true ∧
    ((expectedResult config_a 0 (pumpDelay config_a 0)
        (extensionTime config_a 0) (lockDelay config_a 0)).timeline.map
      (fun e => e.1)).take 2 = [0, 0] ∧
    (∀ e ∈ (expectedResult config_a 0 (pumpDelay config_a 0)
        (extensionTime config_a 0) (lockDelay config_a 0)).timeline.drop 6,
        e = (config_a.requirement_time_ms, breachMsg config_a.requirement_time_ms,
          GearState.FAILURE_DETECTED)) :=
  C4_monotonicity config_a 0 0 0 0 0 _
    (simulate_ok config_a 0 0 0 0 0 (by decide) (by rw [extensionTime_config_a]; decide))
    (by decide)

lemma extensionTime_cfg_neg_pump : extensionTime cfg_neg_pump 0 = 100 := by
  rw [extensionTime_eq cfg_neg_pump 0 100 (by norm_num [cfg_neg_pump])]
  decide

lemma extensionTime_cfg_neg_req : extensionTime cfg_neg_req 0 = 100 := by
  rw [extensionTime_eq cfg_neg_req 0 100 (by norm_num [cfg_neg_req])]
  decide

lemma extensionTime_cfg_zero_work : extensionTime cfg_zero_work 0 = 0 := by
  rw [extensionTime_eq cfg_zero_work 0 (mkRat 1 2)
    (by rw [Rat.mkRat_eq_divInt, Rat.divInt_eq_div]; norm_num [cfg_zero_work])]
  decide

/-- Counterexample to C6 as stated: with the spec-valid configuration
`cfg_neg_req` (its requirement deadline is the integer -1, and the data model
only asks for an integer deadline) and zero variance and noise, every phase
delay is clamped non-negative and yet the returned timeline contains the
negative timestamp -1, carried by the synthetic FAILURE_DETECTED event. -/
theorem C6_clamping_counterexample :
    (simulate_landing_gear_extension cfg_neg_req 0 0 0 0 0).map
        (fun r => r.timeline.map (fun e => e.1)) =
      Except.ok [0, 0, 0, 100, 100, 100, -1] ∧
    ¬ (∀ x ∈ [(0:Int), 0, 0, 100, 100, 100, -1], 0 ≤ x) := by
  constructor
  · rw [simulate_ok cfg_neg_req 0 0 0 0 0 (by decide)
      (by rw [extensionTime_cfg_neg_req]; decide), extensionTime_cfg_neg_req]
    decide
  · decide

/-- C6 amended: for every run that returns a result with non-negative sensor
noise, no phase delay is negative (each is clamped to a minimum of 0, and the
sensor delay is the non-negative noise), and, provided the requirement
deadline is non-negative, every timestamp in the returned timeline is
non-negative (the failure event carries the deadline itself as timestamp). -/
theorem C6_clamping (c : GearConfiguration) (v n d1 d2 d3 : Int)
    (r : SimulationResult)
    (h : simulate_landing_gear_extension c v n d1 d2 d3 = Except.ok r)
    (hn : 0 ≤ n) (hreq : 0 ≤ c.requirement_time_ms) :
    0 ≤ pumpDelay c d1 ∧ 0 ≤ extensionTime c d2 ∧ 0 ≤ lockDelay c d3 ∧
    (∀ e ∈ r.timeline, 0 ≤ e.1) := by
  obtain ⟨hs, ht, hr⟩ := simulate_ok_inv c v n d1 d2 d3 r h
  subst hr
  have hP : 0 ≤ pumpDelay c d1 := le_max_right _ _
  have hE : 0 ≤ extensionTime c d2 := le_max_right _ _
  have hL : 0 ≤ lockDelay c d3 := le_max_right _ _
  refine ⟨hP, hE, hL, ?_⟩
  unfold expectedResult
  by_cases hm : pumpDelay c d1 + extensionTime c d2 + n + lockDelay c d3 ≤
      c.requirement_time_ms
  · rw [if_pos hm]
    intro e he
    simp only [baseTimeline, List.mem_cons, List.not_mem_nil, or_false] at he
    rcases he with rfl | rfl | rfl | rfl | rfl | rfl <;> dsimp only <;> omega
  · rw [if_neg hm]
    intro e he
    simp only [baseTimeline, List.cons_append, List.nil_append, List.mem_cons,
      List.not_mem_nil, or_false] at he
    rcases he with rfl | rfl | rfl | rfl | rfl | rfl | rfl <;> dsimp only <;> omega

/-- Witness for the amended C6 at configuration A with zero variance and
noise. -/
theorem C6_clamping_witness :
    0 ≤ pumpDelay config_a 0 ∧ 0 ≤ extensionTime config_a 0 ∧
    0 ≤ lockDelay config_a 0 ∧
    (∀ e ∈ (expectedResult config_a 0 (pumpDelay config_a 0)
        (extensionTime config_a 0) (lockDelay config_a 0)).timeline, 0 ≤ e.1) :=
  C6_clamping config_a 0 0 0 0 0 _
    (simulate_ok config_a 0 0 0 0 0 (by decide) (by rw [extensionTime_config_a]; decide))
    (by decide) (by decide)

/-- Counterexample to C2 as stated: `cfg_neg_pump` has a positive actuator
speed (the only validity invariant the spec states for a run) but a negative
nominal pump latency, so the pump clamp fires and the returned total,
0 + 100 + 0 + 0 = 100, differs from the claimed exact formula
-1 + 100 + 0 + 0 = 99. -/
theorem C2_exact_total_counterexample :
    ¬ ((simulate_landing_gear_extension cfg_neg_pump 0 0 0 0 0).map
          (fun r => r.total_time_ms) =
        Except.ok (cfg_neg_pump.pump_latency_ms +
          intTrunc ((cfg_neg_pump.extension_distance_mm : ℚ) /
            (cfg_neg_pump.actuator_speed_mm_per_100ms / 100)) +
          0 + cfg_neg_pump.lock_time_ms)) := by
  have hq : ((cfg_neg_pump.extension_distance_mm : ℚ) /
      (cfg_neg_pump.actuator_speed_mm_per_100ms / 100)) = 100 := by
    norm_num [cfg_neg_pump]
  rw [hq, simulate_ok cfg_neg_pump 0 0 0 0 0 (by decide)
    (by rw [extensionTime_cfg_neg_pump]; decide), extensionTime_cfg_neg_pump]
  decide

/-- C2 amended: for every configuration with positive actuator speed and
non-negative pump latency, lock time and extension distance, with zero
variance and noise (hence zero draws), the total is exactly
`pump_latency_ms + trunc(extension_distance_mm / (speed / 100)) + 0 +
lock_time_ms`, and none of the three max-with-0 clamps changes its
argument. -/
theorem C2_exact_total (c : GearConfiguration)
    (hs : 0 < c.actuator_speed_mm_per_100ms) (hp : 0 ≤ c.pump_latency_ms)
    (hl : 0 ≤ c.lock_time_ms) (hd : 0 ≤ c.extension_distance_mm) :
    (simulate_landing_gear_extension c 0 0 0 0 0).map (fun r => r.total_time_ms) =
      Except.ok (c.pump_latency_ms +
        intTrunc ((c.extension_distance_mm : ℚ) / (c.actuator_speed_mm_per_100ms / 100)) +
        0 + c.lock_time_ms) ∧
    pumpDelay c 0 = c.pump_latency_ms ∧
    extensionTime c 0 =
      intTrunc ((c.extension_distance_mm : ℚ) / (c.actuator_speed_mm_per_100ms / 100)) ∧
    lockDelay c 0 = c.lock_time_ms := by
  have hq0 : (0:ℚ) ≤ (c.extension_distance_mm : ℚ) / (c.actuator_speed_mm_per_100ms / 100) :=
    div_nonneg (by exact_mod_cast hd) (le_of_lt (div_pos hs (by norm_num)))
  have hE0 : 0 ≤ intTrunc ((c.extension_distance_mm : ℚ) /
      (c.actuator_speed_mm_per_100ms / 100)) :=
    Int.tdiv_nonneg (Rat.num_nonneg.mpr hq0) (Int.natCast_nonneg _)
  have hP : pumpDelay c 0 = c.pump_latency_ms := by
    rw [pumpDelay, add_zero]
    exact max_eq_left hp
  have hE : extensionTime c 0 =
      intTrunc ((c.extension_distance_mm : ℚ) / (c.actuator_speed_mm_per_100ms / 100)) := by
    rw [extensionTime, add_zero]
    exact max_eq_left hE0
  have hL : lockDelay c 0 = c.lock_time_ms := by
    rw [lockDelay, add_zero]
    exact max_eq_left hl
  refine ⟨?_, hP, hE, hL⟩
  rw [simulate_ok c 0 0 0 0 0 hs (by rw [hP, hE, hL]; omega)]
  rw [hP, hE, hL]
  unfold expectedResult
  by_cases hm : c.pump_latency_ms +
      intTrunc ((c.extension_distance_mm : ℚ) / (c.actuator_speed_mm_per_100ms / 100)) +
      0 + c.lock_time_ms ≤ c.requirement_time_ms
  · rw [if_pos hm]
    rfl
  · rw [if_neg hm]
    rfl

/-- Witness for the amended C2 at configuration B: total
100 + 5833 + 0 + 300 = 6233 with no clamping. -/
theorem C2_exact_total_witness :
    (simulate_landing_gear_extension config_b 0 0 0 0 0).map (fun r => r.total_time_ms) =
      Except.ok (config_b.pump_latency_ms +
        intTrunc ((config_b.extension_distance_mm : ℚ) /
          (config_b.actuator_speed_mm_per_100ms / 100)) +
        0 + config_b.lock_time_ms) ∧
    pumpDelay config_b 0 = config_b.pump_latency_ms ∧
    extensionTime config_b 0 =
      intTrunc ((config_b.extension_distance_mm : ℚ) /
        (config_b.actuator_speed_mm_per_100ms / 100)) ∧
    lockDelay config_b 0 = config_b.lock_time_ms :=
  C2_exact_total config_b (by decide) (by decide) (by decide) (by decide)

/-- C5: a non-positive actuator speed makes the run fail with the
InvalidConfiguration error (and, the result being an error, no timeline and
no partial result are produced), while a positive actuator speed together
with non-negative sensor noise makes the run return a result and raise no
error. -/
theorem C5_precondition (c : GearConfiguration) (v n d1 d2 d3 : Int) :
    (c.actuator_speed_mm_per_100ms ≤ 0 →
        simulate_landing_gear_extension c v n d1 d2 d3 =
          Except.error SimError.invalidConfiguration) ∧
    (0 < c.actuator_speed_mm_per_100ms → 0 ≤ n →
        (simulate_landing_gear_extension c v n d1 d2 d3).isOk = true) := by
  constructor
  · exact fun hs => simulate_speed_error c v n d1 d2 d3 hs
  · intro hs hn
    have hP : 0 ≤ pumpDelay c d1 := le_max_right _ _
    have hE : 0 ≤ extensionTime c d2 := le_max_right _ _
    have hL : 0 ≤ lockDelay c d3 := le_max_right _ _
    rw [simulate_ok c v n d1 d2 d3 hs (by omega)]
    rfl

/-- Witness for C5: the zero-speed configuration errors out with
InvalidConfiguration, and configuration B with the entry point's variance
parameters raises no error. -/
theorem C5_precondition_witness :
    simulate_landing_gear_extension cfg_bad_speed 200 50 1 2 3 =
      Except.error SimError.invalidConfiguration ∧
    (simulate_landing_gear_extension config_b 200 50 1 2 3).isOk = true :=
  ⟨(C5_precondition cfg_bad_speed 200 50 1 2 3).1 (by decide),
   (C5_precondition config_b 200 50 1 2 3).2 (by decide) (by decide)⟩

lemma rand_eq (c : GearConfiguration) (v n : Int) (g : Nat → Int) (p : Nat)
    (hs : 0 < c.actuator_speed_mm_per_100ms) :
    simulate_landing_gear_rand c v n g p =
      (simulate_landing_gear_extension c v n (g p) (g (p + 1)) (g (p + 2)), p + 3) := by
  simp only [simulate_landing_gear_rand, simulate_landing_gear_extension]
  rw [if_neg (speed_check_false c hs), if_neg (speed_check_false c hs)]
  by_cases hT : pumpDelay c (g p) + extensionTime c (g (p + 1)) + n +
      lockDelay c (g (p + 2)) < 0
  · rw [if_pos hT, if_pos hT]
  · rw [if_neg hT, if_neg hT]
    by_cases hm : decide ((0:Int) + pumpDelay c (g p) + extensionTime c (g (p + 1)) + n +
        lockDelay c (g (p + 2)) ≤ c.requirement_time_ms) = true
    · rw [if_pos hm, if_pos hm]
    · rw [if_neg hm, if_neg hm]

/-- C7: the engine consumes exactly three values of the shared random stream,
in the fixed order pump, extension, lock, so the result is a function of the
three values at the current stream position (determinism for a fixed seed),
and two configurations run back to back consume stream positions p..p+2 and
p+3..p+5 respectively. -/
theorem C7_draw_order (c1 c2 : GearConfiguration) (v n : Int) (g : Nat → Int) (p : Nat)
    (h1 : 0 < c1.actuator_speed_mm_per_100ms)
    (h2 : 0 < c2.actuator_speed_mm_per_100ms) :
    simulate_landing_gear_rand c1 v n g p =
      (simulate_landing_gear_extension c1 v n (g p) (g (p + 1)) (g (p + 2)), p + 3) ∧
    (∀ g2 : Nat → Int, g2 p = g p → g2 (p + 1) = g (p + 1) → g2 (p + 2) = g (p + 2) →
        simulate_landing_gear_rand c1 v n g2 p = simulate_landing_gear_rand c1 v n g p) ∧
    runTwoConfigs c1 c2 v n g p =
      ((simulate_landing_gear_extension c1 v n (g p) (g (p + 1)) (g (p + 2)),
        simulate_landing_gear_extension c2 v n (g (p + 3)) (g (p + 4)) (g (p + 5))),
        p + 6) := by
  refine ⟨rand_eq c1 v n g p h1, ?_, ?_⟩
  · intro g2 e0 e1 e2
    rw [rand_eq c1 v n g2 p h1, rand_eq c1 v n g p h1, e0, e1, e2]
  · simp only [runTwoConfigs]
    rw [rand_eq c1 v n g p h1]
    dsimp only
    rw [rand_eq c2 v n g (p + 3) h2]

/-- Witness for C7 with the stream k ↦ k from position 0: configuration A
consumes draws 0, 1, 2 and configuration B, run immediately after, consumes
draws 3, 4, 5. -/
theorem C7_draw_order_witness :
    simulate_landing_gear_rand config_a 200 50 (fun k => (k : Int)) 0 =
      (simulate_landing_gear_extension config_a 200 50 0 1 2, 3) ∧
    runTwoConfigs config_a config_b 200 50 (fun k => (k : Int)) 0 =
      ((simulate_landing_gear_extension config_a 200 50 0 1 2,
        simulate_landing_gear_extension config_b 200 50 3 4 5), 6) :=
  ⟨(C7_draw_order config_a config_b 200 50 (fun k => (k : Int)) 0
      (by decide) (by decide)).1,
   (C7_draw_order config_a config_b 200 50 (fun k => (k : Int)) 0
      (by decide) (by decide)).2.2⟩

/-- C8: the console rendering of the progress bar and the wall-clock readings
have no influence on the returned result: the result component is the same
for any two wall clocks and coincides with the pure engine of
simulate_landing_gear_extension applied to the configuration, the variance
parameters and the three draws. -/
theorem C8_render_noninterference (c : GearConfiguration) (v n d1 d2 d3 : Int)
    (k1 k2 : Nat → ℚ) :
    (simulate_landing_gear_with_console c v n d1 d2 d3 k1).1 =
      (simulate_landing_gear_with_console c v n d1 d2 d3 k2).1 ∧
    (simulate_landing_gear_with_console c v n d1 d2 d3 k1).1 =
      simulate_landing_gear_extension c v n d1 d2 d3 := by
  have key : ∀ k : Nat → ℚ,
      (simulate_landing_gear_with_console c v n d1 d2 d3 k).1 =
        simulate_landing_gear_extension c v n d1 d2 d3 := by
    intro k
    simp only [simulate_landing_gear_with_console, simulate_landing_gear_extension]
    by_cases h1 : c.actuator_speed_mm_per_100ms / 100 ≤ (0:ℚ)
    · rw [if_pos h1, if_pos h1]
    · rw [if_neg h1, if_neg h1]
      by_cases hT : pumpDelay c d1 + extensionTime c d2 + n + lockDelay c d3 < 0
      · rw [if_pos hT, if_pos hT]
      · rw [if_neg hT, if_neg hT]
        by_cases hm : decide ((0:Int) + pumpDelay c d1 + extensionTime c d2 + n +
            lockDelay c d3 ≤ c.requirement_time_ms) = true
        · rw [if_pos hm, if_pos hm]
        · rw [if_neg hm, if_neg hm]
  exact ⟨(key k1).trans (key k2).symm, key k1⟩

lemma dup_speed_error (c : GearConfiguration) (v n d1 d2 d3 : Int)
    (hs : c.actuator_speed_mm_per_100ms ≤ 0) :
    simulate_landing_gear_extension_dup c v n d1 d2 d3 =
      Except.error SimError.invalidConfiguration := by
  simp only [simulate_landing_gear_extension_dup]
  rw [if_pos (speed_check_true c hs)]

lemma dup_ok (c : GearConfiguration) (v n d1 d2 d3 : Int)
    (hs : 0 < c.actuator_speed_mm_per_100ms) :
    simulate_landing_gear_extension_dup c v n d1 d2 d3 =
      Except.ok (expectedResult c n (pumpDelay c d1) (extensionTime c d2) (lockDelay c d3)) := by
  simp only [simulate_landing_gear_extension_dup, zero_add]
  rw [if_neg (speed_check_false c hs)]
  by_cases hm : pumpDelay c d1 + extensionTime c d2 + n + lockDelay c d3 ≤
      c.requirement_time_ms
  · simp only [decide_eq_true_eq]
    rw [if_pos hm]
    simp [expectedResult, baseTimeline, hm]
  · simp only [decide_eq_true_eq]
    rw [if_neg hm]
    simp [expectedResult, baseTimeline, hm]

/-- Counterexample to C9 as stated: on the configuration whose three nominal
delays are zero, with sensor noise -1 and zero draws, the
simulation_logic.py version aborts with the ValueError that `time.sleep`
raises on the negative per-step duration, while the copy in __init__.py
(which has no progress bar) returns a result; the two engines do not return
equal results for every configuration and parameters. -/
theorem C9_equivalence_counterexample :
    simulate_landing_gear_extension cfg_zero_work 0 (-1) 0 0 0 ≠
      simulate_landing_gear_extension_dup cfg_zero_work 0 (-1) 0 0 0 := by
  rw [simulate_sleep_error cfg_zero_work 0 (-1) 0 0 0 (by decide)
      (by rw [extensionTime_cfg_zero_work]; decide),
    dup_ok cfg_zero_work 0 (-1) 0 0 0 (by decide)]
  intro hh
  exact Except.noConfusion hh

/-- C9 amended: whenever the four delays sum to a non-negative total (in
particular whenever the sensor noise is non-negative, since the other three
delays are clamped), the two engine copies return equal results on the same
configuration, parameters and draw sequence; they also agree on every
invalid-speed configuration. -/
theorem C9_equivalence (c : GearConfiguration) (v n d1 d2 d3 : Int)
    (ht : 0 ≤ pumpDelay c d1 + extensionTime c d2 + n + lockDelay c d3) :
    simulate_landing_gear_extension c v n d1 d2 d3 =
      simulate_landing_gear_extension_dup c v n d1 d2 d3 := by
  by_cases hs : 0 < c.actuator_speed_mm_per_100ms
  · rw [simulate_ok c v n d1 d2 d3 hs ht, dup_ok c v n d1 d2 d3 hs]
  · rw [simulate_speed_error c v n d1 d2 d3 (not_lt.mp hs),
      dup_speed_error c v n d1 d2 d3 (not_lt.mp hs)]

/-- Witness for the amended C9 at configuration A with zero variance and
noise. -/
theorem C9_equivalence_witness :
    simulate_landing_gear_extension config_a 0 0 0 0 0 =
      simulate_landing_gear_extension_dup config_a 0 0 0 0 0 :=
  C9_equivalence config_a 0 0 0 0 0 (by rw [extensionTime_config_a]; decide)

/-- Counterexample to C10 as stated: for the valid configuration
`cfg_zero_work` (positive actuator speed, positive extension distance) there
is no negative sensor noise for which the call completes without error: the
phase delays sum to the noise alone, the per-step sleep duration of the
progress bar is negative, and `time.sleep` raises. -/
theorem C10_sensor_noise_counterexample :
    ¬ ∃ sn : Int, sn < 0 ∧
        (simulate_landing_gear_extension cfg_zero_work 0 sn 0 0 0).isOk = true := by
  rintro ⟨sn, hsn, hok⟩
  cases hE : simulate_landing_gear_extension cfg_zero_work 0 sn 0 0 0 with
  | error e =>
    rw [hE] at hok
    exact Bool.noConfusion hok
  | ok r =>
    have h3 := (simulate_ok_inv cfg_zero_work 0 sn 0 0 0 r hE).2.1
    rw [extensionTime_cfg_zero_work] at h3
    have hP : pumpDelay cfg_zero_work 0 = 0 := by decide
    have hL : lockDelay cfg_zero_work 0 = 0 := by decide
    rw [hP, hL] at h3
    omega

/-- C10 amended: sensor noise is never validated or clamped; for every valid
configuration and negative sensor noise that keeps the four delays summing
non-negative (so that the progress-bar sleep does not raise), the call
completes, the noise is added unclamped, the sensor event's timestamp is
strictly below the preceding actuator event's, and the total is reduced by
the magnitude of the noise. -/
theorem C10_sensor_noise (c : GearConfiguration) (n : Int)
    (hs : 0 < c.actuator_speed_mm_per_100ms) (hn : n < 0)
    (hb : 0 ≤ pumpDelay c 0 + extensionTime c 0 + n + lockDelay c 0) :
    simulate_landing_gear_extension c 0 n 0 0 0 =
      Except.ok (expectedResult c n (pumpDelay c 0) (extensionTime c 0) (lockDelay c 0)) ∧
    (expectedResult c n (pumpDelay c 0) (extensionTime c 0)
        (lockDelay c 0)).timeline.get? 3 =
      some (pumpDelay c 0 + extensionTime c 0, actuatorMsg (extensionTime c 0),
        GearState.TRANSITIONING_DOWN) ∧
    (expectedResult c n (pumpDelay c 0) (extensionTime c 0)
        (lockDelay c 0)).timeline.get? 4 =
      some (pumpDelay c 0 + extensionTime c 0 + n, sensorMsg n,
        GearState.TRANSITIONING_DOWN) ∧
    pumpDelay c 0 + extensionTime c 0 + n < pumpDelay c 0 + extensionTime c 0 ∧
    (expectedResult c n (pumpDelay c 0) (extensionTime c 0)
        (lockDelay c 0)).total_time_ms =
      pumpDelay c 0 + extensionTime c 0 + lockDelay c 0 + n ∧
    (expectedResult c n (pumpDelay c 0) (extensionTime c 0)
        (lockDelay c 0)).total_time_ms <
      pumpDelay c 0 + extensionTime c 0 + lockDelay c 0 := by
  have htot : (expectedResult c n (pumpDelay c 0) (extensionTime c 0)
      (lockDelay c 0)).total_time_ms =
      pumpDelay c 0 + extensionTime c 0 + n + lockDelay c 0 := by
    unfold expectedResult
    by_cases hm : pumpDelay c 0 + extensionTime c 0 + n + lockDelay c 0 ≤
        c.requirement_time_ms
    · rw [if_pos hm]
    · rw [if_neg hm]
  have hget3 : (expectedResult c n (pumpDelay c 0) (extensionTime c 0)
      (lockDelay c 0)).timeline.get? 3 =
      some (pumpDelay c 0 + extensionTime c 0, actuatorMsg (extensionTime c 0),
        GearState.TRANSITIONING_DOWN) := by
    unfold expectedResult
    by_cases hm : pumpDelay c 0 + extensionTime c 0 + n + lockDelay c 0 ≤
        c.requirement_time_ms
    · rw [if_pos hm]
      rfl
    · rw [if_neg hm]
      rfl
  have hget4 : (expectedResult c n (pumpDelay c 0) (extensionTime c 0)
      (lockDelay c 0)).timeline.get? 4 =
      some (pumpDelay c 0 + extensionTime c 0 + n, sensorMsg n,
        GearState.TRANSITIONING_DOWN) := by
    unfold expectedResult
    by_cases hm : pumpDelay c 0 + extensionTime c 0 + n + lockDelay c 0 ≤
        c.requirement_time_ms
    · rw [if_pos hm]
      rfl
    · rw [if_neg hm]
      rfl
  exact ⟨simulate_ok c 0 n 0 0 0 hs hb, hget3, hget4, by omega,
    by rw [htot]; omega, by rw [htot]; omega⟩

/-- Witness for the amended C10 at configuration A with sensor noise -1. -/
theorem C10_sensor_noise_witness :
    simulate_landing_gear_extension config_a 0 (-1) 0 0 0 =
      Except.ok (expectedResult config_a (-1) (pumpDelay config_a 0)
        (extensionTime config_a 0) (lockDelay config_a 0)) ∧
    (expectedResult config_a (-1) (pumpDelay config_a 0) (extensionTime config_a 0)
        (lockDelay config_a 0)).timeline.get? 3 =
      some (pumpDelay config_a 0 + extensionTime config_a 0,
        actuatorMsg (extensionTime config_a 0), GearState.TRANSITIONING_DOWN) ∧
    (expectedResult config_a (-1) (pumpDelay config_a 0) (extensionTime config_a 0)
        (lockDelay config_a 0)).timeline.get? 4 =
      some (pumpDelay config_a 0 + extensionTime config_a 0 + (-1), sensorMsg (-1),
        GearState.TRANSITIONING_DOWN) ∧
    pumpDelay config_a 0 + extensionTime config_a 0 + (-1) <
      pumpDelay config_a 0 + extensionTime config_a 0 ∧
    (expectedResult config_a (-1) (pumpDelay config_a 0) (extensionTime config_a 0)
        (lockDelay config_a 0)).total_time_ms =
      pumpDelay config_a 0 + extensionTime config_a 0 + lockDelay config_a 0 + (-1) ∧
    (expectedResult config_a (-1) (pumpDelay config_a 0) (extensionTime config_a 0)
        (lockDelay config_a 0)).total_time_ms <
      pumpDelay config_a 0 + extensionTime config_a 0 + lockDelay config_a 0 :=
  C10_sensor_noise config_a (-1) (by decide) (by decide)
    (by rw [extensionTime_config_a]; decide)
